import Mathlib

set_option autoImplicit false

namespace GoSyslog

/-! Shallow embedding of the request-tracing logger (logger/logger.go).
Go contexts are modelled as chains of WithValue layers; times are Nat
nanoseconds; the uuid provider (generateUUID) is modelled by passing the
string it would return as an explicit argument. -/

/-- Keys used to store string values in the Go context (the ContextKey constants
UUIDKey, ServiceNameKey, EndpointKey, MethodKey, TraceIDKey, TransactionIDKey). -/
inductive CtxKey where
  | uuidKey
  | serviceNameKey
  | endpointKey
  | methodKey
  | traceIDKey
  | transactionIDKey
  deriving DecidableEq, Repr

/-- One layer of a Go context chain produced by context.WithValue: either a string
value stored under one of the string keys, or a time.Time stored under
StartTimeKey (times modelled as Nat nanoseconds). -/
inductive CtxEntry where
  | strVal (k : CtxKey) (v : String)
  | timeVal (t : Nat)
  deriving DecidableEq, Repr

/-- A Go context.Context as the logger uses it: nil (none) or a chain of
WithValue layers, nearest layer first. -/
abbrev Context := Option (List CtxEntry)

/-- Entry chain of a context, treating nil as context.Background() (empty chain). -/
def ctxEntries (c : Context) : List CtxEntry := c.getD []

/-- Nearest string value stored under key k in a chain (context Value lookup;
a start-time layer lives under the distinct StartTimeKey, so string-key lookup
skips it). -/
def lookupStr : List CtxEntry → CtxKey → Option String
  | [], _ => none
  | .strVal k v :: rest, k2 => if k2 = k then some v else lookupStr rest k2
  | .timeVal _ :: rest, k2 => lookupStr rest k2

/-- Nearest start time stored in the chain (context Value lookup for StartTimeKey). -/
def lookupTime : List CtxEntry → Option Nat
  | [] => none
  | .strVal _ _ :: rest => lookupTime rest
  | .timeVal t :: _ => some t

/-- Model of getValueFromContext (logger.go:311): the stored value when present and
non-empty, else the default. -/
def getValueFromContext (ctx : Context) (key : CtxKey) (defaultValue : String) : String :=
  match ctx with
  | none => defaultValue
  | some es =>
    match lookupStr es key with
    | some v => if v = "" then defaultValue else v
    | none => defaultValue

/-- Model of getStartTimeFromContext (logger.go:322); some t plays (t, true). -/
def getStartTimeFromContext (ctx : Context) : Option Nat :=
  match ctx with
  | none => none
  | some es => lookupTime es

/-- Model of getUUIDFromContext (logger.go:144); gen is the string the uuid
provider (generateUUID) would return for this call. -/
def getUUIDFromContext (gen : String) (ctx : Context) : String :=
  match ctx with
  | none => gen
  | some es =>
    match lookupStr es .uuidKey with
    | some v => if v = "" then gen else v
    | none => gen

/-- Model of WithUUID (logger.go:155). -/
def WithUUID (ctx : Context) (uuid : String) : Context :=
  some (.strVal .uuidKey uuid :: ctxEntries ctx)

/-- Model of WithNewUUID (logger.go:163); gen is the freshly generated uuid. -/
def WithNewUUID (gen : String) (ctx : Context) : Context :=
  WithUUID ctx gen

/-- Model of WithServiceName (logger.go:171). -/
def WithServiceName (ctx : Context) (serviceName : String) : Context :=
  some (.strVal .serviceNameKey serviceName :: ctxEntries ctx)

/-- Model of WithEndpoint (logger.go:179). -/
def WithEndpoint (ctx : Context) (endpoint : String) : Context :=
  some (.strVal .endpointKey endpoint :: ctxEntries ctx)

/-- Model of WithMethod (logger.go:187). -/
def WithMethod (ctx : Context) (method : String) : Context :=
  some (.strVal .methodKey method :: ctxEntries ctx)

/-- Model of WithTraceID (logger.go:195). -/
def WithTraceID (ctx : Context) (traceID : String) : Context :=
  some (.strVal .traceIDKey traceID :: ctxEntries ctx)

/-- Model of WithTransactionID (logger.go:203). -/
def WithTransactionID (ctx : Context) (transactionID : String) : Context :=
  some (.strVal .transactionIDKey transactionID :: ctxEntries ctx)

/-- Model of WithStartTime (logger.go:211). -/
def WithStartTime (ctx : Context) (startTime : Nat) : Context :=
  some (.timeVal startTime :: ctxEntries ctx)

/-- Model of the LogEntry struct (logger.go:58): the projection that the
mandatory-layout renderer consumes. The Flag field is its underlying string
(LogFlag), empty for no flag. -/
structure LogEntry where
  Timestamp : String
  LogLevel : String
  TransactionID : String
  ServiceName : String
  Endpoint : String
  MethodType : String
  ExecutionTime : String
  ServerIP : String
  TraceID : String
  Body : String
  Flag : String
  Message : String
  deriving DecidableEq, Repr

/-- Model of the StartConfig struct (logger.go:74). -/
structure StartConfig where
  ServiceName : String := ""
  Endpoint : String := ""
  Method : String := ""
  TransactionID : String := ""
  TraceID : String := ""
  Body : String := ""
  Message : String := ""
  Level : String := ""
  deriving DecidableEq, Repr

/-- Model of the Logger instance fields that decide rendering and sink routing
(logger.go:101): enableConsole, useFile (true exactly when a file handle was
opened), and the cached facts. -/
structure Logger where
  enableConsole : Bool
  useFile : Bool
  hostname : String
  ipAddress : String
  deriving DecidableEq, Repr

/-- Segments of the mandatory layout, in the exact order formatMandatoryMessage
(logger.go:451) appends them; the rendered line joins them with a pipe. -/
def mandatoryParts (entry : LogEntry) : List String :=
  ["[" ++ entry.Timestamp ++ "]", "[" ++ entry.LogLevel ++ "]"]
    ++ (if entry.Flag ≠ "" then ["[" ++ entry.Flag ++ "]"] else [])
    ++ (if entry.ServiceName ≠ "unknown" then ["Service: " ++ entry.ServiceName] else [])
    ++ (if entry.MethodType ≠ "unknown" ∧ entry.Endpoint ≠ "unknown" then
          ["[" ++ entry.MethodType ++ "] " ++ entry.Endpoint]
        else if entry.MethodType ≠ "unknown" then ["Method: " ++ entry.MethodType]
        else if entry.Endpoint ≠ "unknown" then ["Route: " ++ entry.Endpoint]
        else [])
    ++ (if entry.TransactionID ≠ "" then ["TxnID: " ++ entry.TransactionID] else [])
    ++ (if entry.TraceID ≠ "" ∧ entry.TraceID ≠ entry.TransactionID then
          ["TraceID: " ++ entry.TraceID] else [])
    ++ (if entry.ExecutionTime ≠ "0ms" ∧ entry.ExecutionTime ≠ "" then
          ["Duration: " ++ entry.ExecutionTime] else [])
    ++ ["IP: " ++ entry.ServerIP]
    ++ (if entry.Body ≠ "" then ["Body: " ++ entry.Body] else [])
    ++ ["→ " ++ entry.Message]

/-- Model of formatMandatoryMessage (logger.go:451): join the segments with a pipe. -/
def formatMandatoryMessage (entry : LogEntry) : String :=
  String.intercalate " | " (mandatoryParts entry)

/-- Model of the LogEntry construction inside LogWithMandatoryFields
(logger.go:618-649). Arguments gen1 and gen2 are the strings generateUUID would
return for the two getUUIDFromContext fallback calls (lines 623 and 624); ts is
the formatted wall-clock timestamp and now the monotonic time in nanoseconds. -/
def mkEntry (l : Logger) (ts gen1 gen2 : String) (ctx : Context)
    (level : String) (flag : String) (message body : String) (now : Nat) : LogEntry :=
  { Timestamp := ts
    LogLevel := level
    TransactionID := getValueFromContext ctx .transactionIDKey (getUUIDFromContext gen1 ctx)
    ServiceName := getValueFromContext ctx .serviceNameKey "unknown"
    Endpoint := getValueFromContext ctx .endpointKey "unknown"
    MethodType := getValueFromContext ctx .methodKey "unknown"
    ExecutionTime :=
      match getStartTimeFromContext ctx with
      | some startTime => toString ((now - startTime) / 1000000) ++ "ms"
      | none => "0ms"
    ServerIP := l.ipAddress
    TraceID := getValueFromContext ctx .traceIDKey (getUUIDFromContext gen2 ctx)
    Body := body
    Flag := flag
    Message := message }

/-- The escape character that starts every ANSI color code emitted by the logger. -/
def escChar : Char := '\x1b'

/-- Colored console rendering of one line (the Fprintf calls of writeToBoth,
logger.go:510-523, and the identical switch in LogWithMandatoryFields,
logger.go:653-667); a trailing newline is part of every write. -/
def consoleRender (level formatted : String) : String :=
  if level = "ERROR" then "\x1b[31m" ++ formatted ++ "\x1b[0m\n"
  else if level = "WARNING" then "\x1b[33m" ++ formatted ++ "\x1b[0m\n"
  else if level = "SUCCESS" then "\x1b[32m" ++ formatted ++ "\x1b[0m\n"
  else if level = "INFO" then "\x1b[36m" ++ formatted ++ "\x1b[0m\n"
  else formatted ++ "\n"

/-- Bytes written to each sink by one logging call (interactive console sink,
durable file sink), each as a list of write operations. -/
structure SinkWrites where
  consoleOut : List String
  fileOut : List String
  deriving DecidableEq, Repr

/-- Sink dispatch common to writeToBoth (logger.go:507-531) and
LogWithMandatoryFields (logger.go:653-673): colored line to the console when
enabled, plain line plus newline to the file when the handle is open. -/
def writeDispatch (l : Logger) (level formatted : String) : SinkWrites :=
  { consoleOut := if l.enableConsole then [consoleRender level formatted] else []
    fileOut := if l.useFile then [formatted ++ "\n"] else [] }

/-- One LogWithMandatoryFields call (logger.go:618-674): the entry it builds and
the bytes each sink receives. -/
def LogWithMandatoryFields (l : Logger) (ts gen1 gen2 : String) (ctx : Context)
    (level : String) (flag : String) (message body : String) (now : Nat) :
    LogEntry × SinkWrites :=
  let entry := mkEntry l ts gen1 gen2 ctx level flag message body now
  (entry, writeDispatch l level (formatMandatoryMessage entry))

/-- Arguments of one LogWithMandatoryFields call as issued by the lifecycle
methods: the carrier, the level, the flag, the message and the body. -/
structure MandatoryCall where
  ctx : Context
  level : String
  flag : String
  message : String
  body : String
  deriving DecidableEq, Repr

/-- Model of Stop (logger.go:749-757): defaults then LogStop, which forwards to
LogWithMandatoryFields with flag STOP. -/
def Stop (ctx : Context) (level message body : String) : MandatoryCall :=
  let message2 := if message = "" then "Request completed" else message
  let level2 := if level = "" then "SUCCESS" else level
  { ctx := ctx, level := level2, flag := "STOP", message := message2, body := body }

/-- The carrier built by Start (logger.go:693-728) before the START event is
emitted; gen is the uuid WithNewUUID would generate, now the start time. -/
def startSeed (gen : String) (now : Nat) (ctx : Context) (config : StartConfig) : Context :=
  let c0 := if config.TransactionID = "" then WithNewUUID gen ctx
            else WithTransactionID (WithUUID ctx config.TransactionID) config.TransactionID
  let c1 := if config.ServiceName ≠ "" then WithServiceName c0 config.ServiceName else c0
  let c2 := if config.Endpoint ≠ "" then WithEndpoint c1 config.Endpoint else c1
  let c3 := if config.Method ≠ "" then WithMethod c2 config.Method else c2
  let c4 := if config.TraceID ≠ "" then WithTraceID c3 config.TraceID else c3
  WithStartTime c4 now

/-- Model of Start (logger.go:693-746): the returned carrier together with the
LogStart call it issues (flag START, defaulted level and message, config body). -/
def Start (gen : String) (now : Nat) (ctx : Context) (config : StartConfig) :
    Context × MandatoryCall :=
  let c := startSeed gen now ctx config
  let level := if config.Level = "" then "INFO" else config.Level
  let message := if config.Message = "" then "Request started" else config.Message
  (c, { ctx := c, level := level, flag := "START", message := message, body := config.Body })

/-- Model of the LoggerConfig struct (logger.go:95); logType plays the Type field. -/
structure LoggerConfig where
  LogFile : String := ""
  logType : String := ""
  deriving DecidableEq, Repr

/-- The config StartLogger works with after nil-defaulting (logger.go:336-340). -/
def effConfig (config0 : Option LoggerConfig) : LoggerConfig :=
  config0.getD { LogFile := "", logType := "console" }

/-- The sink type after the empty-type defaulting of StartLogger
(logger.go:343-349): all when a log file was supplied, else console. -/
def effectiveType (config0 : Option LoggerConfig) : String :=
  let config := effConfig config0
  if config.logType = "" then
    (if config.LogFile ≠ "" then "all" else "console")
  else config.logType

/-- Model of StartLogger (logger.go:334-384). The openOk flag models whether
os.OpenFile succeeds (it is consulted only when a file is actually opened);
host facts are passed in. An error result carries the Go error message and,
as in the Go code, no logger instance accompanies it. -/
def StartLogger (config0 : Option LoggerConfig) (openOk : Bool)
    (hostname ipAddress : String) : Except String Logger :=
  let config := effConfig config0
  let ty := effectiveType config0
  if (ty = "file" ∨ ty = "all") ∧ config.LogFile = "" then
    .error "LogFile is required when Type is 'file' or 'all'"
  else
    let enableConsole := ty = "console" ∨ ty = "all"
    let enableFile := ty = "file" ∨ ty = "all"
    if enableFile ∧ config.LogFile ≠ "" then
      if openOk then
        .ok { enableConsole := enableConsole, useFile := true,
              hostname := hostname, ipAddress := ipAddress }
      else .error "failed to open log file"
    else
      .ok { enableConsole := enableConsole, useFile := false,
            hostname := hostname, ipAddress := ipAddress }

/-- Observable action of the wrapped handler on the response writer: an explicit
WriteHeader call or a Write of a byte chunk (chunks modelled as strings). -/
inductive RespEvent where
  | writeHeader (code : Nat)
  | write (chunk : String)
  deriving DecidableEq, Repr

/-- Model of the responseWriter wrapper state (logger.go:940-954): statusCode
starts at 200 (http.StatusOK) and is overwritten by WriteHeader; Write REPLACES
the stored body with the chunk just written (rw.body = b). -/
def runResponseWriter (events : List RespEvent) : Nat × Option String :=
  events.foldl
    (fun st e =>
      match e with
      | .writeHeader code => (code, st.2)
      | .write chunk => (st.1, some chunk))
    (200, none)

/-- The concatenation of every chunk the handler wrote: the entire emitted body. -/
def wholeBody (events : List RespEvent) : String :=
  events.foldl
    (fun acc e =>
      match e with
      | .writeHeader _ => acc
      | .write chunk => acc ++ chunk)
    ""

/-- Status-to-level selection of StandardHTTPMiddleware (logger.go:922-927). -/
def statusToLevel (statusCode : Nat) : String :=
  if statusCode ≥ 400 then "ERROR"
  else if statusCode ≥ 300 then "WARNING"
  else "SUCCESS"

/-- Result of one pass through StandardHTTPMiddleware (logger.go:894-937):
whether the START/STOP pair was emitted and, when it was, the Stop call made
after the handler ran (the Stop defaults of logger.go:749 applied). The ctx
field of the call is left as the seeded carrier built upstream. -/
structure MiddlewareResult where
  started : Bool
  stopCall : Option MandatoryCall
  deriving DecidableEq, Repr

/-- Model of the skip-list check and the Stop invocation of
StandardHTTPMiddleware: on a skipped path only the handler runs; otherwise the
wrapped response writer captures status and body and Stop is called with the
threshold-selected level, the fixed message, and string(wrapped.body). -/
def StandardHTTPMiddleware (skipPaths : List String) (path : String)
    (seeded : Context) (events : List RespEvent) : MiddlewareResult :=
  if path ∈ skipPaths then { started := false, stopCall := none }
  else
    let captured := runResponseWriter events
    let level := statusToLevel captured.1
    let body := captured.2.getD ""
    { started := true, stopCall := some (Stop seeded level "Request completed" body) }

/-- ANSI stripper: text mode copies characters until an escape character starts a
color code; skip mode discards up to and including the terminating m. -/
def stripAnsiAux : Bool → List Char → List Char
  | _, [] => []
  | true, c :: rest => if c = 'm' then stripAnsiAux false rest else stripAnsiAux true rest
  | false, c :: rest =>
    if c = escChar then stripAnsiAux true rest else c :: stripAnsiAux false rest

/-- Remove the ANSI color escape sequences from a rendered line. -/
def stripAnsi (s : String) : String :=
  String.mk (stripAnsiAux false s.data)

/-- A string free of the ANSI escape character (so it contains no color codes). -/
def ansiFree (s : String) : Prop := escChar ∉ s.data

instance (s : String) : Decidable (ansiFree s) := by
  unfold ansiFree; infer_instance

/-- The LogEntry emitted by one Stop call (Stop → LogStop → LogWithMandatoryFields,
logger.go:749, 682, 618). -/
def stopEntry (l : Logger) (ts gen1 gen2 : String) (ctx : Context)
    (level message body : String) (now : Nat) : LogEntry :=
  let call := Stop ctx level message body
  mkEntry l ts gen1 gen2 call.ctx call.level call.flag call.message call.body now

/-- The bytes of the LAST Write call the handler performed, if any; the
responseWriter wrapper retains exactly this chunk. -/
def lastWriteChunk (events : List RespEvent) : Option String :=
  events.foldl
    (fun acc e =>
      match e with
      | .writeHeader _ => acc
      | .write chunk => some chunk)
    none

/-! Segment predicates: a rendered line contains a given labeled segment exactly
when some element of its mandatoryParts starts with that label. -/

/-- A part that is the Duration segment of the layout. -/
def isDurationSegment (p : String) : Bool := List.isPrefixOf "Duration: ".data p.data

/-- A part that is the TxnID segment of the layout. -/
def isTxnSegment (p : String) : Bool := List.isPrefixOf "TxnID: ".data p.data

/-- A part that is the TraceID segment of the layout. -/
def isTraceSegment (p : String) : Bool := List.isPrefixOf "TraceID: ".data p.data

/-- A part that is the Service segment of the layout. -/
def isServiceSegment (p : String) : Bool := List.isPrefixOf "Service: ".data p.data

/-- A part that is the Body segment of the layout. -/
def isBodySegment (p : String) : Bool := List.isPrefixOf "Body: ".data p.data

theorem isDurationSegment_brack (x y : String) : isDurationSegment ("[" ++ x ++ y) = false := rfl
theorem isDurationSegment_brackME (x y : String) :
    isDurationSegment ("[" ++ x ++ "] " ++ y) = false := rfl
theorem isDurationSegment_service (x : String) : isDurationSegment ("Service: " ++ x) = false := rfl
theorem isDurationSegment_method (x : String) : isDurationSegment ("Method: " ++ x) = false := rfl
theorem isDurationSegment_route (x : String) : isDurationSegment ("Route: " ++ x) = false := rfl
theorem isDurationSegment_txn (x : String) : isDurationSegment ("TxnID: " ++ x) = false := rfl
theorem isDurationSegment_trace (x : String) : isDurationSegment ("TraceID: " ++ x) = false := rfl
theorem isDurationSegment_ip (x : String) : isDurationSegment ("IP: " ++ x) = false := rfl
theorem isDurationSegment_body (x : String) : isDurationSegment ("Body: " ++ x) = false := rfl
theorem isDurationSegment_msg (x : String) : isDurationSegment ("→ " ++ x) = false := rfl
theorem isDurationSegment_self (x : String) : isDurationSegment ("Duration: " ++ x) = true := by
  simp [isDurationSegment, List.isPrefixOf]

theorem isTxnSegment_brack (x y : String) : isTxnSegment ("[" ++ x ++ y) = false := rfl
theorem isTxnSegment_brackME (x y : String) : isTxnSegment ("[" ++ x ++ "] " ++ y) = false := rfl
theorem isTxnSegment_service (x : String) : isTxnSegment ("Service: " ++ x) = false := rfl
theorem isTxnSegment_method (x : String) : isTxnSegment ("Method: " ++ x) = false := rfl
theorem isTxnSegment_route (x : String) : isTxnSegment ("Route: " ++ x) = false := rfl
theorem isTxnSegment_trace (x : String) : isTxnSegment ("TraceID: " ++ x) = false := rfl
theorem isTxnSegment_dur (x : String) : isTxnSegment ("Duration: " ++ x) = false := rfl
theorem isTxnSegment_ip (x : String) : isTxnSegment ("IP: " ++ x) = false := rfl
theorem isTxnSegment_body (x : String) : isTxnSegment ("Body: " ++ x) = false := rfl
theorem isTxnSegment_msg (x : String) : isTxnSegment ("→ " ++ x) = false := rfl
theorem isTxnSegment_self (x : String) : isTxnSegment ("TxnID: " ++ x) = true := by
  simp [isTxnSegment, List.isPrefixOf]

theorem isTraceSegment_brack (x y : String) : isTraceSegment ("[" ++ x ++ y) = false := rfl
theorem isTraceSegment_brackME (x y : String) : isTraceSegment ("[" ++ x ++ "] " ++ y) = false := rfl
theorem isTraceSegment_service (x : String) : isTraceSegment ("Service: " ++ x) = false := rfl
theorem isTraceSegment_method (x : String) : isTraceSegment ("Method: " ++ x) = false := rfl
theorem isTraceSegment_route (x : String) : isTraceSegment ("Route: " ++ x) = false := rfl
theorem isTraceSegment_txn (x : String) : isTraceSegment ("TxnID: " ++ x) = false := rfl
theorem isTraceSegment_dur (x : String) : isTraceSegment ("Duration: " ++ x) = false := rfl
theorem isTraceSegment_ip (x : String) : isTraceSegment ("IP: " ++ x) = false := rfl
theorem isTraceSegment_body (x : String) : isTraceSegment ("Body: " ++ x) = false := rfl
theorem isTraceSegment_msg (x : String) : isTraceSegment ("→ " ++ x) = false := rfl
theorem isTraceSegment_self (x : String) : isTraceSegment ("TraceID: " ++ x) = true := by
  simp [isTraceSegment, List.isPrefixOf]

theorem isServiceSegment_brack (x y : String) : isServiceSegment ("[" ++ x ++ y) = false := rfl
theorem isServiceSegment_brackME (x y : String) :
    isServiceSegment ("[" ++ x ++ "] " ++ y) = false := rfl
theorem isServiceSegment_method (x : String) : isServiceSegment ("Method: " ++ x) = false := rfl
theorem isServiceSegment_route (x : String) : isServiceSegment ("Route: " ++ x) = false := rfl
theorem isServiceSegment_txn (x : String) : isServiceSegment ("TxnID: " ++ x) = false := rfl
theorem isServiceSegment_trace (x : String) : isServiceSegment ("TraceID: " ++ x) = false := rfl
theorem isServiceSegment_dur (x : String) : isServiceSegment ("Duration: " ++ x) = false := rfl
theorem isServiceSegment_ip (x : String) : isServiceSegment ("IP: " ++ x) = false := rfl
theorem isServiceSegment_body (x : String) : isServiceSegment ("Body: " ++ x) = false := rfl
theorem isServiceSegment_msg (x : String) : isServiceSegment ("→ " ++ x) = false := rfl
theorem isServiceSegment_self (x : String) : isServiceSegment ("Service: " ++ x) = true := by
  simp [isServiceSegment, List.isPrefixOf]

theorem isBodySegment_brack (x y : String) : isBodySegment ("[" ++ x ++ y) = false := rfl
theorem isBodySegment_brackME (x y : String) : isBodySegment ("[" ++ x ++ "] " ++ y) = false := rfl
theorem isBodySegment_service (x : String) : isBodySegment ("Service: " ++ x) = false := rfl
theorem isBodySegment_method (x : String) : isBodySegment ("Method: " ++ x) = false := rfl
theorem isBodySegment_route (x : String) : isBodySegment ("Route: " ++ x) = false := rfl
theorem isBodySegment_txn (x : String) : isBodySegment ("TxnID: " ++ x) = false := rfl
theorem isBodySegment_trace (x : String) : isBodySegment ("TraceID: " ++ x) = false := rfl
theorem isBodySegment_dur (x : String) : isBodySegment ("Duration: " ++ x) = false := rfl
theorem isBodySegment_ip (x : String) : isBodySegment ("IP: " ++ x) = false := rfl
theorem isBodySegment_msg (x : String) : isBodySegment ("→ " ++ x) = false := rfl
theorem isBodySegment_self (x : String) : isBodySegment ("Body: " ++ x) = true := by
  simp [isBodySegment, List.isPrefixOf]

theorem any_ite_singleton (c : Prop) [Decidable c] (x : String) (p : String → Bool) :
    (if c then [x] else []).any p = (decide c && p x) := by
  split <;> simp [*]

/-- The rendered mandatory layout has a Duration segment exactly when the
execution-time string is neither the 0ms sentinel nor empty. -/
theorem any_isDurationSegment (e : LogEntry) :
    (mandatoryParts e).any isDurationSegment
      = decide (e.ExecutionTime ≠ "0ms" ∧ e.ExecutionTime ≠ "") := by
  unfold mandatoryParts
  simp only [List.any_append, List.any_cons, List.any_nil, any_ite_singleton,
    isDurationSegment_brack, isDurationSegment_brackME, isDurationSegment_service,
    isDurationSegment_method, isDurationSegment_route, isDurationSegment_txn,
    isDurationSegment_trace, isDurationSegment_ip, isDurationSegment_body,
    isDurationSegment_msg, isDurationSegment_self,
    Bool.and_true, Bool.and_false, Bool.or_false, Bool.false_or]
  split
  · simp [isDurationSegment_brackME]
  · split
    · simp [isDurationSegment_method]
    · split <;> simp [isDurationSegment_route]

/-- The rendered mandatory layout has a TxnID segment exactly when the entry's
transaction id is non-empty. -/
theorem any_isTxnSegment (e : LogEntry) :
    (mandatoryParts e).any isTxnSegment = decide (e.TransactionID ≠ "") := by
  unfold mandatoryParts
  simp only [List.any_append, List.any_cons, List.any_nil, any_ite_singleton,
    isTxnSegment_brack, isTxnSegment_brackME, isTxnSegment_service,
    isTxnSegment_method, isTxnSegment_route, isTxnSegment_trace,
    isTxnSegment_dur, isTxnSegment_ip, isTxnSegment_body,
    isTxnSegment_msg, isTxnSegment_self,
    Bool.and_true, Bool.and_false, Bool.or_false, Bool.false_or]
  split
  · simp [isTxnSegment_brackME]
  · split
    · simp [isTxnSegment_method]
    · split <;> simp [isTxnSegment_route]

/-- The rendered mandatory layout has a TraceID segment exactly when the entry's
trace id is non-empty and differs from its transaction id. -/
theorem any_isTraceSegment (e : LogEntry) :
    (mandatoryParts e).any isTraceSegment
      = decide (e.TraceID ≠ "" ∧ e.TraceID ≠ e.TransactionID) := by
  unfold mandatoryParts
  simp only [List.any_append, List.any_cons, List.any_nil, any_ite_singleton,
    isTraceSegment_brack, isTraceSegment_brackME, isTraceSegment_service,
    isTraceSegment_method, isTraceSegment_route, isTraceSegment_txn,
    isTraceSegment_dur, isTraceSegment_ip, isTraceSegment_body,
    isTraceSegment_msg, isTraceSegment_self,
    Bool.and_true, Bool.and_false, Bool.or_false, Bool.false_or]
  split
  · simp [isTraceSegment_brackME]
  · split
    · simp [isTraceSegment_method]
    · split <;> simp [isTraceSegment_route]

/-- The rendered mandatory layout has a Service segment exactly when the entry's
service name is not the unknown sentinel. -/
theorem any_isServiceSegment (e : LogEntry) :
    (mandatoryParts e).any isServiceSegment = decide (e.ServiceName ≠ "unknown") := by
  unfold mandatoryParts
  simp only [List.any_append, List.any_cons, List.any_nil, any_ite_singleton,
    isServiceSegment_brack, isServiceSegment_brackME, isServiceSegment_method,
    isServiceSegment_route, isServiceSegment_txn, isServiceSegment_trace,
    isServiceSegment_dur, isServiceSegment_ip, isServiceSegment_body,
    isServiceSegment_msg, isServiceSegment_self,
    Bool.and_true, Bool.and_false, Bool.or_false, Bool.false_or]
  split
  · simp [isServiceSegment_brackME]
  · split
    · simp [isServiceSegment_method]
    · split <;> simp [isServiceSegment_route]

/-- The rendered mandatory layout has a Body segment exactly when the entry's
body is non-empty. -/
theorem any_isBodySegment (e : LogEntry) :
    (mandatoryParts e).any isBodySegment = decide (e.Body ≠ "") := by
  unfold mandatoryParts
  simp only [List.any_append, List.any_cons, List.any_nil, any_ite_singleton,
    isBodySegment_brack, isBodySegment_brackME, isBodySegment_service,
    isBodySegment_method, isBodySegment_route, isBodySegment_txn,
    isBodySegment_trace, isBodySegment_dur, isBodySegment_ip,
    isBodySegment_msg, isBodySegment_self,
    Bool.and_true, Bool.and_false, Bool.or_false, Bool.false_or]
  split
  · simp [isBodySegment_brackME]
  · split
    · simp [isBodySegment_method]
    · split <;> simp [isBodySegment_route]

/-! Lookup lemmas for the carrier chain. -/

theorem lookupStr_strVal_self (k : CtxKey) (v : String) (l : List CtxEntry) :
    lookupStr (.strVal k v :: l) k = some v := by
  simp [lookupStr]

theorem lookupStr_strVal_ne (k k2 : CtxKey) (v : String) (l : List CtxEntry) (h : k2 ≠ k) :
    lookupStr (.strVal k v :: l) k2 = lookupStr l k2 := by
  simp [lookupStr, h]

theorem lookupStr_timeVal (t : Nat) (l : List CtxEntry) (k2 : CtxKey) :
    lookupStr (.timeVal t :: l) k2 = lookupStr l k2 := rfl

theorem lookupTime_strVal (k : CtxKey) (v : String) (l : List CtxEntry) :
    lookupTime (.strVal k v :: l) = lookupTime l := rfl

theorem lookupTime_timeVal (t : Nat) (l : List CtxEntry) :
    lookupTime (.timeVal t :: l) = some t := rfl

/-- A context read with a non-empty default never yields the empty string. -/
theorem getValueFromContext_ne_empty (ctx : Context) (k : CtxKey) (d : String) (h : d ≠ "") :
    getValueFromContext ctx k d ≠ "" := by
  unfold getValueFromContext
  split
  · exact h
  · split
    · split <;> simp_all
    · exact h

/-- The uuid read never yields the empty string when the generator's output is
non-empty (generateUUID returns a rendered uuid or the unknown sentinel). -/
theorem getUUIDFromContext_ne_empty (gen : String) (ctx : Context) (h : gen ≠ "") :
    getUUIDFromContext gen ctx ≠ "" := by
  unfold getUUIDFromContext
  split
  · exact h
  · split
    · split <;> simp_all
    · exact h

/-- Deriving a context always yields a context distinct from the source value. -/
theorem cons_ctx_ne (c : Context) (e : CtxEntry) : some (e :: ctxEntries c) ≠ c := by
  cases c with
  | none => simp
  | some l =>
    intro h
    exact List.cons_ne_self e l (Option.some.inj h)

/-! ANSI stripping lemmas. -/

theorem stripAnsiAux_false_append (l rest : List Char) (h : escChar ∉ l) :
    stripAnsiAux false (l ++ rest) = l ++ stripAnsiAux false rest := by
  induction l with
  | nil => rfl
  | cons c cs ih =>
    simp only [List.mem_cons, not_or] at h
    simp only [List.cons_append, stripAnsiAux, List.append_eq]
    rw [if_neg (fun hc => h.1 hc.symm), ih h.2]

theorem stripAnsiAux_true_skip (l rest : List Char) (h : 'm' ∉ l) :
    stripAnsiAux true (l ++ 'm' :: rest) = stripAnsiAux false rest := by
  induction l with
  | nil => simp [stripAnsiAux]
  | cons c cs ih =>
    simp only [List.mem_cons, not_or] at h
    simp only [List.cons_append, stripAnsiAux, List.append_eq]
    rw [if_neg (fun hc => h.1 hc.symm), ih h.2]

/-! Lookups on the carrier that Start builds. -/

theorem lookupStr_startSeed_uuid (gen : String) (now : Nat) (ctx : Context) (cfg : StartConfig) :
    lookupStr (ctxEntries (startSeed gen now ctx cfg)) .uuidKey
      = some (if cfg.TransactionID = "" then gen else cfg.TransactionID) := by
  unfold startSeed WithStartTime WithTraceID WithMethod WithEndpoint WithServiceName
    WithNewUUID WithTransactionID WithUUID
  split <;> split <;> split <;> split <;> split <;>
    simp [ctxEntries, lookupStr]

theorem lookupStr_startSeed_txn (gen : String) (now : Nat) (ctx : Context) (cfg : StartConfig)
    (h : cfg.TransactionID = "") :
    lookupStr (ctxEntries (startSeed gen now ctx cfg)) .transactionIDKey
      = lookupStr (ctxEntries ctx) .transactionIDKey := by
  unfold startSeed WithStartTime WithTraceID WithMethod WithEndpoint WithServiceName
    WithNewUUID WithTransactionID WithUUID
  simp only [h, if_pos rfl]
  split <;> split <;> split <;> split <;>
    simp [ctxEntries, lookupStr]

theorem lookupStr_startSeed_txn2 (gen : String) (now : Nat) (ctx : Context) (cfg : StartConfig)
    (h : cfg.TransactionID ≠ "") :
    lookupStr (ctxEntries (startSeed gen now ctx cfg)) .transactionIDKey
      = some cfg.TransactionID := by
  unfold startSeed WithStartTime WithTraceID WithMethod WithEndpoint WithServiceName
    WithNewUUID WithTransactionID WithUUID
  simp only [h, if_neg h]
  split <;> split <;> split <;> split <;>
    simp [ctxEntries, lookupStr]

theorem startSeed_startTime (gen : String) (now : Nat) (ctx : Context) (cfg : StartConfig) :
    getStartTimeFromContext (startSeed gen now ctx cfg) = some now := rfl

/-! Reading through lookups. -/

theorem getValue_of_lookup (c : Context) (k : CtxKey) (d v : String) (hv : v ≠ "")
    (h : lookupStr (ctxEntries c) k = some v) : getValueFromContext c k d = v := by
  cases c with
  | none => simp [ctxEntries, lookupStr] at h
  | some es =>
    simp only [ctxEntries, Option.getD] at h
    simp [getValueFromContext, h, hv]

theorem getValue_of_lookup_none (c : Context) (k : CtxKey) (d : String)
    (h : lookupStr (ctxEntries c) k = none) : getValueFromContext c k d = d := by
  cases c with
  | none => rfl
  | some es =>
    simp only [ctxEntries, Option.getD] at h
    simp only [getValueFromContext, h]

theorem getUUID_of_lookup (g : String) (c : Context) (v : String) (hv : v ≠ "")
    (h : lookupStr (ctxEntries c) .uuidKey = some v) : getUUIDFromContext g c = v := by
  cases c with
  | none => simp [ctxEntries, lookupStr] at h
  | some es =>
    simp only [ctxEntries, Option.getD] at h
    simp only [getUUIDFromContext, h, if_neg hv]

theorem getValue_withVal_ne (c : Context) (k2 k : CtxKey) (v d : String) (h : k ≠ k2) :
    getValueFromContext (some (.strVal k2 v :: ctxEntries c)) k d
      = getValueFromContext c k d := by
  cases c with
  | none => simp [getValueFromContext, ctxEntries, lookupStr, h]
  | some es => simp [getValueFromContext, ctxEntries, lookupStr, h]

theorem getValue_withStartTime (c : Context) (t : Nat) (k : CtxKey) (d : String) :
    getValueFromContext (WithStartTime c t) k d = getValueFromContext c k d := by
  cases c with
  | none => simp [getValueFromContext, WithStartTime, ctxEntries, lookupStr]
  | some es => simp [getValueFromContext, WithStartTime, ctxEntries, lookupStr]

/-! Middleware helpers. -/

theorem statusToLevel_ne_empty (s : Nat) : statusToLevel s ≠ "" := by
  unfold statusToLevel
  split
  · decide
  · split <;> decide

theorem runResponseWriter_body (events : List RespEvent) :
    (runResponseWriter events).2 = lastWriteChunk events := by
  unfold runResponseWriter lastWriteChunk
  suffices h : ∀ (p : Nat × Option String),
      (events.foldl
        (fun st e =>
          match e with
          | .writeHeader code => (code, st.2)
          | .write chunk => (st.1, some chunk)) p).2
        = events.foldl
            (fun acc e =>
              match e with
              | .writeHeader _ => acc
              | .write chunk => some chunk) p.2 by
    exact h (200, none)
  induction events with
  | nil => intro p; rfl
  | cons e rest ih =>
    intro p
    cases e with
    | writeHeader code => simpa using ih (code, p.2)
    | write chunk => simpa using ih (p.1, some chunk)

/-! ANSI helpers for the dual-sink claim. -/

theorem stripAnsi_wrap (pre : List Char) (s : String) (hpre : 'm' ∉ pre) (h : ansiFree s) :
    stripAnsiAux false (escChar :: (pre ++ ('m' :: (s.data ++ [escChar, '[', '0', 'm', '\n']))))
      = (s ++ "\n").data := by
  have h1 : stripAnsiAux false
        (escChar :: (pre ++ ('m' :: (s.data ++ [escChar, '[', '0', 'm', '\n']))))
      = stripAnsiAux true (pre ++ ('m' :: (s.data ++ [escChar, '[', '0', 'm', '\n']))) := by
    simp [stripAnsiAux]
  rw [h1, stripAnsiAux_true_skip pre _ hpre, stripAnsiAux_false_append s.data _ h]
  rw [show stripAnsiAux false ([escChar, '[', '0', 'm', '\n'] : List Char) = ['\n'] from by decide]
  rw [String.data_append]

theorem stripAnsi_consoleRender (level s : String) (h : ansiFree s) :
    stripAnsi (consoleRender level s) = s ++ "\n" := by
  have hs : escChar ∉ s.data := h
  unfold consoleRender stripAnsi
  split
  · rw [String.data_append, String.data_append, List.append_assoc]
    rw [show ("\x1b[31m".data ++ (s.data ++ "\x1b[0m\n".data))
        = escChar :: (['[', '3', '1'] ++ ('m' :: (s.data ++ [escChar, '[', '0', 'm', '\n'])))
        from rfl]
    rw [stripAnsi_wrap ['[', '3', '1'] s (by decide) h]
  · split
    · rw [String.data_append, String.data_append, List.append_assoc]
      rw [show ("\x1b[33m".data ++ (s.data ++ "\x1b[0m\n".data))
          = escChar :: (['[', '3', '3'] ++ ('m' :: (s.data ++ [escChar, '[', '0', 'm', '\n'])))
          from rfl]
      rw [stripAnsi_wrap ['[', '3', '3'] s (by decide) h]
    · split
      · rw [String.data_append, String.data_append, List.append_assoc]
        rw [show ("\x1b[32m".data ++ (s.data ++ "\x1b[0m\n".data))
            = escChar :: (['[', '3', '2'] ++ ('m' :: (s.data ++ [escChar, '[', '0', 'm', '\n'])))
            from rfl]
        rw [stripAnsi_wrap ['[', '3', '2'] s (by decide) h]
      · split
        · rw [String.data_append, String.data_append, List.append_assoc]
          rw [show ("\x1b[36m".data ++ (s.data ++ "\x1b[0m\n".data))
              = escChar :: (['[', '3', '6'] ++ ('m' :: (s.data ++ [escChar, '[', '0', 'm', '\n'])))
              from rfl]
          rw [stripAnsi_wrap ['[', '3', '6'] s (by decide) h]
        · rw [String.data_append, stripAnsiAux_false_append s.data _ hs]
          rw [show stripAnsiAux false ("\n".data) = ['\n'] from by decide]
          rfl

theorem ansiFree_append_newline (s : String) (h : ansiFree s) : ansiFree (s ++ "\n") := by
  unfold ansiFree at h ⊢
  rw [String.data_append]
  simp only [List.mem_append, not_or]
  exact ⟨h, by decide⟩

/-- C1: for every carrier and every Stop call, an empty level defaults to SUCCESS
and an empty message to "Request completed"; the emitted mandatory entry carries
flag STOP; its execution time is the elapsed whole milliseconds now − startTime
when the carrier records a start time and the 0ms sentinel otherwise; and the
rendered line has a Duration segment exactly when the execution-time string is
neither 0ms nor empty. -/
theorem stop_defaults_flag_duration (l : Logger) (ts gen1 gen2 : String) (ctx : Context)
    (level message body : String) (now : Nat) (e : LogEntry)
    (he : e = stopEntry l ts gen1 gen2 ctx level message body now) :
    (level = "" → e.LogLevel = "SUCCESS")
    ∧ (message = "" → e.Message = "Request completed")
    ∧ e.Flag = "STOP"
    ∧ (∀ t, getStartTimeFromContext ctx = some t →
        e.ExecutionTime = toString ((now - t) / 1000000) ++ "ms")
    ∧ (getStartTimeFromContext ctx = none → e.ExecutionTime = "0ms")
    ∧ ((mandatoryParts e).any isDurationSegment = true
        ↔ (e.ExecutionTime ≠ "0ms" ∧ e.ExecutionTime ≠ "")) := by
  subst he
  refine ⟨?_, ?_, rfl, ?_, ?_, ?_⟩
  · intro h; simp [stopEntry, Stop, mkEntry, h]
  · intro h; simp [stopEntry, Stop, mkEntry, h]
  · intro t ht; simp [stopEntry, Stop, mkEntry, ht]
  · intro ht; simp [stopEntry, Stop, mkEntry, ht]
  · rw [any_isDurationSegment]; exact decide_eq_true_iff

/-- C1 witness: a Stop call with empty level and message on a carrier started at
time 0, logged at 5000000ns, yields level SUCCESS, the default message, and a
5ms execution time. -/
theorem stop_defaults_flag_duration_witness :
    (stopEntry ⟨true, true, "h", "ip"⟩ "T" "u1" "u2" (some [.timeVal 0]) "" "" "" 5000000).LogLevel
        = "SUCCESS"
    ∧ (stopEntry ⟨true, true, "h", "ip"⟩ "T" "u1" "u2" (some [.timeVal 0]) "" "" "" 5000000).Message
        = "Request completed"
    ∧ (stopEntry ⟨true, true, "h", "ip"⟩ "T" "u1" "u2"
        (some [.timeVal 0]) "" "" "" 5000000).ExecutionTime
        = toString ((5000000 - 0) / 1000000) ++ "ms" := by
  have h := stop_defaults_flag_duration ⟨true, true, "h", "ip"⟩ "T" "u1" "u2"
    (some [.timeVal 0]) "" "" "" 5000000 _ rfl
  exact ⟨h.1 rfl, h.2.1 rfl, h.2.2.2.1 0 rfl⟩

/-- C2 counterexample: Start with an empty config.TransactionID on a carrier that
already holds transaction-id "old" does NOT use the freshly generated id as the
resulting carrier's transaction-id — the transaction-id read back (exactly as
LogWithMandatoryFields reads it) is still "old", not the fresh "fresh". -/
theorem start_reuses_existing_txn_counterexample :
    ({} : StartConfig).TransactionID = ""
    ∧ getValueFromContext (Start "fresh" 0 (some [.strVal .transactionIDKey "old"]) {}).1
        .transactionIDKey
        (getUUIDFromContext "fresh"
          (Start "fresh" 0 (some [.strVal .transactionIDKey "old"]) {}).1)
      = "old"
    ∧ ("old" : String) ≠ "fresh" :=
  ⟨rfl, rfl, by decide⟩

/-- C2 amended: Start emits a START call on the carrier it returns, defaults an
empty Level to INFO and an empty Message to "Request started", and records the
start time. When config.TransactionID is empty a fresh id becomes the carrier's
unique-id, and it also serves as the effective transaction-id provided the
incoming carrier had no transaction-id of its own (the transaction-id key itself
is not written in that case); when config.TransactionID is non-empty the
supplied value is stored as both unique-id and transaction-id. -/
theorem start_seed_contract (gen : String) (now : Nat) (ctx : Context) (cfg : StartConfig)
    (g d : String) (hgen : gen ≠ "") :
    (Start gen now ctx cfg).2.flag = "START"
    ∧ (Start gen now ctx cfg).2.ctx = (Start gen now ctx cfg).1
    ∧ (cfg.Level = "" → (Start gen now ctx cfg).2.level = "INFO")
    ∧ (cfg.Message = "" → (Start gen now ctx cfg).2.message = "Request started")
    ∧ (Start gen now ctx cfg).2.body = cfg.Body
    ∧ getStartTimeFromContext (Start gen now ctx cfg).1 = some now
    ∧ (cfg.TransactionID = "" →
        getUUIDFromContext g (Start gen now ctx cfg).1 = gen
        ∧ (lookupStr (ctxEntries ctx) .transactionIDKey = none →
            getValueFromContext (Start gen now ctx cfg).1 .transactionIDKey
              (getUUIDFromContext g (Start gen now ctx cfg).1) = gen))
    ∧ (cfg.TransactionID ≠ "" →
        getUUIDFromContext g (Start gen now ctx cfg).1 = cfg.TransactionID
        ∧ getValueFromContext (Start gen now ctx cfg).1 .transactionIDKey d
            = cfg.TransactionID) := by
  have hstart1 : (Start gen now ctx cfg).1 = startSeed gen now ctx cfg := rfl
  refine ⟨rfl, rfl, ?_, ?_, rfl, ?_, ?_, ?_⟩
  · intro h; simp [Start, h]
  · intro h; simp [Start, h]
  · rw [hstart1]; exact startSeed_startTime gen now ctx cfg
  · intro h
    have huuid : getUUIDFromContext g (Start gen now ctx cfg).1 = gen := by
      rw [hstart1]
      exact getUUID_of_lookup g _ gen hgen (by rw [lookupStr_startSeed_uuid]; simp [h])
    refine ⟨huuid, ?_⟩
    intro hnone
    rw [huuid, hstart1]
    exact getValue_of_lookup_none _ _ _
      (by rw [lookupStr_startSeed_txn gen now ctx cfg h, hnone])
  · intro h
    constructor
    · rw [hstart1]
      exact getUUID_of_lookup g _ _ h (by rw [lookupStr_startSeed_uuid]; simp [h])
    · rw [hstart1]
      exact getValue_of_lookup _ _ _ _ h (lookupStr_startSeed_txn2 gen now ctx cfg h)

/-- C2 witness: on a fresh (nil) carrier with an all-defaults config, the fresh
id "fresh" becomes the unique-id and the effective transaction-id, and the
emitted level defaults to INFO. -/
theorem start_seed_contract_witness :
    getUUIDFromContext "g2" (Start "fresh" 0 none {}).1 = "fresh"
    ∧ getValueFromContext (Start "fresh" 0 none {}).1 .transactionIDKey
        (getUUIDFromContext "g2" (Start "fresh" 0 none {}).1) = "fresh"
    ∧ (Start "fresh" 0 none {}).2.level = "INFO" := by
  have h := start_seed_contract "fresh" 0 none {} "g2" "d" (by decide)
  have h7 := h.2.2.2.2.2.2.1 rfl
  exact ⟨h7.1, h7.2 rfl, h.2.2.1 rfl⟩

/-- C3 counterexample: on a carrier with no service name, the absent field does
NOT render as the sentinel "unknown" — the rendered line carries no Service
segment at all and the word unknown appears nowhere in it. -/
theorem unknown_not_rendered_counterexample :
    getValueFromContext none .serviceNameKey "unknown" = "unknown"
    ∧ formatMandatoryMessage
        (mkEntry ⟨true, true, "h", "1.2.3.4"⟩ "T" "u1" "u2" none "INFO" "" "m" "" 0)
      = "[T] | [INFO] | TxnID: u1 | TraceID: u2 | IP: 1.2.3.4 | → m"
    ∧ (mandatoryParts
        (mkEntry ⟨true, true, "h", "1.2.3.4"⟩ "T" "u1" "u2" none "INFO" "" "m" "" 0)).any
        isServiceSegment = false
    ∧ ¬ List.IsInfix "unknown".data
        (formatMandatoryMessage
          (mkEntry ⟨true, true, "h", "1.2.3.4"⟩ "T" "u1" "u2" none "INFO" "" "m" "" 0)).data :=
  ⟨rfl, rfl, rfl, by decide⟩

/-- C3 amended: fields absent from the carrier (service name, endpoint, method)
are projected into the entry as the sentinel "unknown" — never the empty
string — and the formatter then suppresses segments whose value is the sentinel,
so the sentinel itself never renders: the Service segment appears exactly when
the service name is not "unknown", while the TxnID, TraceID and Body segments
render only when the corresponding value is non-empty. -/
theorem unknown_sentinel_projection (l : Logger) (ts gen1 gen2 : String) (ctx : Context)
    (level flag message body : String) (now : Nat) (e : LogEntry)
    (he : e = mkEntry l ts gen1 gen2 ctx level flag message body now) :
    (lookupStr (ctxEntries ctx) .serviceNameKey = none → e.ServiceName = "unknown")
    ∧ (lookupStr (ctxEntries ctx) .endpointKey = none → e.Endpoint = "unknown")
    ∧ (lookupStr (ctxEntries ctx) .methodKey = none → e.MethodType = "unknown")
    ∧ e.ServiceName ≠ "" ∧ e.Endpoint ≠ "" ∧ e.MethodType ≠ ""
    ∧ ((mandatoryParts e).any isServiceSegment = true ↔ e.ServiceName ≠ "unknown")
    ∧ ((mandatoryParts e).any isTxnSegment = true → e.TransactionID ≠ "")
    ∧ ((mandatoryParts e).any isTraceSegment = true → e.TraceID ≠ "")
    ∧ ((mandatoryParts e).any isBodySegment = true ↔ e.Body ≠ "") := by
  subst he
  refine ⟨?_, ?_, ?_, ?_, ?_, ?_, ?_, ?_, ?_, ?_⟩
  · intro h; exact getValue_of_lookup_none ctx _ _ h
  · intro h; exact getValue_of_lookup_none ctx _ _ h
  · intro h; exact getValue_of_lookup_none ctx _ _ h
  · exact getValueFromContext_ne_empty ctx _ _ (by decide)
  · exact getValueFromContext_ne_empty ctx _ _ (by decide)
  · exact getValueFromContext_ne_empty ctx _ _ (by decide)
  · rw [any_isServiceSegment]; exact decide_eq_true_iff
  · rw [any_isTxnSegment]; intro hh; exact of_decide_eq_true hh
  · rw [any_isTraceSegment]; intro hh; exact (of_decide_eq_true hh).1
  · rw [any_isBodySegment]; exact decide_eq_true_iff

/-- C3 witness: an entry built over the nil carrier has the sentinel "unknown"
for service name, endpoint and method. -/
theorem unknown_sentinel_projection_witness :
    (mkEntry ⟨true, true, "h", "ip"⟩ "T" "u1" "u2" none "INFO" "" "m" "" 0).ServiceName = "unknown"
    ∧ (mkEntry ⟨true, true, "h", "ip"⟩ "T" "u1" "u2" none "INFO" "" "m" "" 0).Endpoint = "unknown"
    ∧ (mkEntry ⟨true, true, "h", "ip"⟩ "T" "u1" "u2" none "INFO" "" "m" "" 0).MethodType
        = "unknown" := by
  have h := unknown_sentinel_projection ⟨true, true, "h", "ip"⟩ "T" "u1" "u2" none
    "INFO" "" "m" "" 0 _ rfl
  exact ⟨h.1 rfl, h.2.1 rfl, h.2.2.1 rfl⟩

/-- C4: in every mandatory-layout entry the renderer produces, when the trace id
equals the transaction id the line omits the TraceID segment, and otherwise both
the TxnID and the TraceID segments appear (the ids read by the renderer are
never empty because the uuid provider's output is never empty). -/
theorem trace_txn_segments (l : Logger) (ts gen1 gen2 : String) (ctx : Context)
    (level flag message body : String) (now : Nat) (e : LogEntry)
    (he : e = mkEntry l ts gen1 gen2 ctx level flag message body now)
    (h1 : gen1 ≠ "") (h2 : gen2 ≠ "") :
    (e.TraceID = e.TransactionID → (mandatoryParts e).any isTraceSegment = false)
    ∧ (e.TraceID ≠ e.TransactionID →
        (mandatoryParts e).any isTxnSegment = true
        ∧ (mandatoryParts e).any isTraceSegment = true) := by
  have htxn : e.TransactionID ≠ "" := by
    subst he
    exact getValueFromContext_ne_empty _ _ _ (getUUIDFromContext_ne_empty gen1 ctx h1)
  have htr : e.TraceID ≠ "" := by
    subst he
    exact getValueFromContext_ne_empty _ _ _ (getUUIDFromContext_ne_empty gen2 ctx h2)
  constructor
  · intro heq; rw [any_isTraceSegment]; simp [heq]
  · intro hne
    rw [any_isTxnSegment, any_isTraceSegment]
    simp [htxn, htr, hne]

/-- C4 witness: an entry whose fallback uuids differ renders both the TxnID and
the TraceID segments. -/
theorem trace_txn_segments_witness :
    (mandatoryParts (mkEntry ⟨true, true, "h", "ip"⟩ "T" "u1" "u2" none "INFO" "" "m" "" 0)).any
        isTxnSegment = true
    ∧ (mandatoryParts (mkEntry ⟨true, true, "h", "ip"⟩ "T" "u1" "u2" none "INFO" "" "m" "" 0)).any
        isTraceSegment = true := by
  have h := trace_txn_segments ⟨true, true, "h", "ip"⟩ "T" "u1" "u2" none "INFO" "" "m" "" 0
    _ rfl (by decide) (by decide)
  exact h.2 (by decide)

/-- C5: for every request whose path is not on the skip list, the middleware's
Stop call uses the level selected from the captured status code — SUCCESS below
300, WARNING from 300 to 399, ERROR from 400 — and in particular a 404 status
yields level ERROR. -/
theorem middleware_status_levels (skipPaths : List String) (path : String) (seeded : Context)
    (events : List RespEvent) (h : path ∉ skipPaths) :
    (StandardHTTPMiddleware skipPaths path seeded events).stopCall
      = some (Stop seeded (statusToLevel (runResponseWriter events).1) "Request completed"
          ((runResponseWriter events).2.getD ""))
    ∧ (∀ sc, (StandardHTTPMiddleware skipPaths path seeded events).stopCall = some sc →
        sc.level = statusToLevel (runResponseWriter events).1)
    ∧ (∀ s : Nat, (s < 300 → statusToLevel s = "SUCCESS")
        ∧ (300 ≤ s → s < 400 → statusToLevel s = "WARNING")
        ∧ (400 ≤ s → statusToLevel s = "ERROR"))
    ∧ statusToLevel 404 = "ERROR" := by
  have hmain : (StandardHTTPMiddleware skipPaths path seeded events).stopCall
      = some (Stop seeded (statusToLevel (runResponseWriter events).1) "Request completed"
          ((runResponseWriter events).2.getD "")) := by
    unfold StandardHTTPMiddleware
    rw [if_neg h]
  refine ⟨hmain, ?_, ?_, rfl⟩
  · intro sc hsc
    rw [hmain] at hsc
    rw [← Option.some.inj hsc]
    simp [Stop, if_neg (statusToLevel_ne_empty (runResponseWriter events).1)]
  · intro s
    refine ⟨?_, ?_, ?_⟩
    · intro hlt; unfold statusToLevel; rw [if_neg (by omega), if_neg (by omega)]
    · intro hge hlt; unfold statusToLevel; rw [if_neg (by omega), if_pos (by omega)]
    · intro hge; unfold statusToLevel; rw [if_pos (by omega)]

/-- C5 witness: a 404 response through the middleware on a non-skipped path
produces a STOP call with level ERROR. -/
theorem middleware_status_levels_witness :
    (StandardHTTPMiddleware ["/health"] "/x" none [.writeHeader 404, .write "nf"]).stopCall
      = some { ctx := none, level := "ERROR", flag := "STOP",
               message := "Request completed", body := "nf" } := by
  have h := middleware_status_levels ["/health"] "/x" none [.writeHeader 404, .write "nf"]
    (by decide)
  rw [h.1]; rfl

/-- C6 counterexample: a handler that writes "a" then "b" emits the body "ab",
but the middleware passes only "b" — the bytes of the last write — to Stop, so
the body passed to stop is NOT the entire emitted body. -/
theorem middleware_body_counterexample :
    (StandardHTTPMiddleware [] "/x" none [.write "a", .write "b"]).stopCall
      = some { ctx := none, level := "SUCCESS", flag := "STOP",
               message := "Request completed", body := "b" }
    ∧ wholeBody [.write "a", .write "b"] = "ab"
    ∧ ("b" : String) ≠ "ab" :=
  ⟨rfl, rfl, by decide⟩

/-- C6 amended: for every request whose path is not on the skip list, the body
passed to stop equals the bytes of the handler's LAST Write call (empty when the
handler never wrote), because the responseWriter wrapper overwrites its stored
body on each Write instead of appending. -/
theorem middleware_body_last_write (skipPaths : List String) (path : String) (seeded : Context)
    (events : List RespEvent) (h : path ∉ skipPaths) :
    (∀ sc, (StandardHTTPMiddleware skipPaths path seeded events).stopCall = some sc →
      sc.body = (lastWriteChunk events).getD "")
    ∧ (runResponseWriter events).2 = lastWriteChunk events := by
  refine ⟨?_, runResponseWriter_body events⟩
  intro sc hsc
  unfold StandardHTTPMiddleware at hsc
  rw [if_neg h] at hsc
  rw [← Option.some.inj hsc]
  simp [Stop, runResponseWriter_body events]

/-- C6 witness: with writes "a" then "b", the Stop body is the last chunk "b". -/
theorem middleware_body_last_write_witness :
    (StandardHTTPMiddleware [] "/x" none [.write "a", .write "b"]).stopCall
      = some { ctx := none, level := "SUCCESS", flag := "STOP",
               message := "Request completed", body := "b" }
    ∧ ({ ctx := none, level := "SUCCESS", flag := "STOP", message := "Request completed",
         body := "b" } : MandatoryCall).body
        = (lastWriteChunk [.write "a", .write "b"]).getD "" := by
  exact ⟨rfl, (middleware_body_last_write [] "/x" none [.write "a", .write "b"] (by decide)).1
    _ rfl⟩

/-- C7: with both sinks enabled, the line written to the durable file sink is
byte-for-byte the line written to the interactive console sink with the ANSI
color escapes removed, and it contains no color codes itself; with console
output disabled, no bytes at all go to the interactive sink for any call. -/
theorem dual_sink_strip (l : Logger) (level s : String)
    (hc : l.enableConsole = true) (hf : l.useFile = true) (hs : ansiFree s) :
    (writeDispatch l level s).consoleOut = [consoleRender level s]
    ∧ (writeDispatch l level s).fileOut = [stripAnsi (consoleRender level s)]
    ∧ ansiFree (stripAnsi (consoleRender level s))
    ∧ (∀ l2 : Logger, l2.enableConsole = false →
        ∀ level2 s2, (writeDispatch l2 level2 s2).consoleOut = []) := by
  refine ⟨?_, ?_, ?_, ?_⟩
  · simp [writeDispatch, hc]
  · rw [stripAnsi_consoleRender level s hs]; simp [writeDispatch, hf]
  · rw [stripAnsi_consoleRender level s hs]; exact ansiFree_append_newline s hs
  · intro l2 h2 level2 s2; simp [writeDispatch, h2]

/-- C7 witness: for a concrete ERROR line the file sink receives the stripped
console rendering, and a console-disabled instance writes nothing to console. -/
theorem dual_sink_strip_witness :
    (writeDispatch ⟨true, true, "h", "ip"⟩ "ERROR" "line").fileOut
      = [stripAnsi (consoleRender "ERROR" "line")]
    ∧ (writeDispatch ⟨false, true, "h", "ip"⟩ "ERROR" "line").consoleOut = [] := by
  have h := dual_sink_strip ⟨true, true, "h", "ip"⟩ "ERROR" "line" rfl rfl (by decide)
  exact ⟨h.2.1, h.2.2.2 ⟨false, true, "h", "ip"⟩ rfl "ERROR" "line"⟩

/-- C8: StartLogger fails — returning an error and no logger instance — exactly
when the effective sink type is file or all and either no log file path was
supplied or the file cannot be opened for append; in every other case it
returns an instance, and an error is returned precisely when no instance is. -/
theorem startLogger_error_iff (config0 : Option LoggerConfig) (openOk : Bool) (hn ip : String) :
    ((∃ e, StartLogger config0 openOk hn ip = .error e)
      ↔ ((effectiveType config0 = "file" ∨ effectiveType config0 = "all")
          ∧ ((effConfig config0).LogFile = "" ∨ openOk = false)))
    ∧ ((∃ inst, StartLogger config0 openOk hn ip = .ok inst)
        ↔ ¬ ∃ e, StartLogger config0 openOk hn ip = .error e) := by
  constructor
  · unfold StartLogger
    by_cases h1 : (effectiveType config0 = "file" ∨ effectiveType config0 = "all") <;>
      by_cases h2 : (effConfig config0).LogFile = "" <;>
        cases openOk <;> simp [h1, h2]
  · cases hres : StartLogger config0 openOk hn ip <;> simp

/-- C9: each with-X carrier operation returns a new carrier distinct from its
argument, reading any other key through the derived carrier yields exactly what
the original carrier yields (the original, being a value, is never mutated),
and reading a key that is not set returns the supplied default. -/
theorem carrier_with_ops_pure (c : Context) (v : String) (t : Nat) (k : CtxKey) (d : String) :
    WithUUID c v ≠ c ∧ WithServiceName c v ≠ c ∧ WithEndpoint c v ≠ c ∧ WithMethod c v ≠ c
    ∧ WithTraceID c v ≠ c ∧ WithTransactionID c v ≠ c ∧ WithStartTime c t ≠ c
    ∧ (k ≠ .uuidKey →
        getValueFromContext (WithUUID c v) k d = getValueFromContext c k d)
    ∧ (k ≠ .serviceNameKey →
        getValueFromContext (WithServiceName c v) k d = getValueFromContext c k d)
    ∧ (k ≠ .endpointKey →
        getValueFromContext (WithEndpoint c v) k d = getValueFromContext c k d)
    ∧ (k ≠ .methodKey →
        getValueFromContext (WithMethod c v) k d = getValueFromContext c k d)
    ∧ (k ≠ .traceIDKey →
        getValueFromContext (WithTraceID c v) k d = getValueFromContext c k d)
    ∧ (k ≠ .transactionIDKey →
        getValueFromContext (WithTransactionID c v) k d = getValueFromContext c k d)
    ∧ getValueFromContext (WithStartTime c t) k d = getValueFromContext c k d
    ∧ (lookupStr (ctxEntries c) k = none → getValueFromContext c k d = d) := by
  refine ⟨cons_ctx_ne c _, cons_ctx_ne c _, cons_ctx_ne c _, cons_ctx_ne c _, cons_ctx_ne c _,
    cons_ctx_ne c _, cons_ctx_ne c _, ?_, ?_, ?_, ?_, ?_, ?_,
    getValue_withStartTime c t k d, getValue_of_lookup_none c k d⟩
  all_goals intro h
  · exact getValue_withVal_ne c _ k v d h
  · exact getValue_withVal_ne c _ k v d h
  · exact getValue_withVal_ne c _ k v d h
  · exact getValue_withVal_ne c _ k v d h
  · exact getValue_withVal_ne c _ k v d h
  · exact getValue_withVal_ne c _ k v d h

/-- C9 witness: deriving a carrier with a service name leaves reads of the
method key unchanged, and an unset key reads back its default. -/
theorem carrier_with_ops_pure_witness :
    WithServiceName (some []) "svc" ≠ some []
    ∧ getValueFromContext (WithServiceName (some []) "svc") .methodKey "dflt"
        = getValueFromContext (some []) .methodKey "dflt"
    ∧ getValueFromContext (some ([] : List CtxEntry)) .methodKey "dflt" = "dflt" := by
  obtain ⟨h1, h2, h3, h4, h5, h6, h7, h8, h9, h10, h11, h12, h13, h14, h15⟩ :=
    carrier_with_ops_pure (some []) "svc" 7 .methodKey "dflt"
  exact ⟨h2, h9 (by decide), h15 rfl⟩

/-- C10: a value stored as the empty string is indistinguishable from an unset
key at the read interface — get returns the default — and reading the unique-id
from a carrier whose unique-id is the empty string yields the freshly generated
id instead of the empty string. -/
theorem empty_string_reads_default (c : Context) (es : List CtxEntry) (k : CtxKey)
    (d gen : String) (hc : c = some es) (h : lookupStr es k = some "") :
    getValueFromContext c k d = d
    ∧ getUUIDFromContext gen (WithUUID c "") = gen := by
  subst hc
  constructor
  · simp [getValueFromContext, h]
  · simp [getUUIDFromContext, WithUUID, ctxEntries, lookupStr]

/-- C10 witness: a carrier storing "" under the service-name key reads back the
default, and a carrier whose unique-id is "" yields the fresh id. -/
theorem empty_string_reads_default_witness :
    getValueFromContext (some [.strVal .serviceNameKey ""]) .serviceNameKey "dflt" = "dflt"
    ∧ getUUIDFromContext "fresh" (WithUUID (some [.strVal .serviceNameKey ""]) "") = "fresh" :=
  empty_string_reads_default (some [.strVal .serviceNameKey ""]) [.strVal .serviceNameKey ""]
    .serviceNameKey "dflt" "fresh" rfl rfl

end GoSyslog
